import Mathlib

/-!
Verification of the library-loan service in `src/index.py`.

The service is a FastAPI application over three SQLAlchemy tables
(`users`, `books`, `loans`).  We embed the database state as lists of
records and each HTTP handler as a pure function from the state (plus the
request data) to a result carrying the post-state.  SQLAlchemy's
`query(...).filter(...).first()` is `List.find?`; an in-place mutation of
the row object returned by `.first()` followed by `commit()` is an update
of the first matching list element (`updateFirst` below).  Dates are
modelled as natural numbers; `datetime.date.today()` is passed in as an
explicit `today` argument.  HTTP-level routing, response-model
serialization and password hashing (bcrypt) are external collaborators and
are not modelled beyond the handler bodies themselves.
-/

/-- Row of the `users` table: integer primary key, username, password hash. -/
structure User where
  id : Nat
  username : String
  password_hash : String
deriving DecidableEq, Repr

/-- Row of the `books` table: integer primary key, title, author and the
availability flag. -/
structure Book where
  id : Nat
  title : String
  author : String
  available : Bool
deriving DecidableEq, Repr

/-- Row of the `loans` table: integer primary key, foreign keys to the
borrowing user and the borrowed book, the loan date and the nullable
return date. -/
structure Loan where
  id : Nat
  user_id : Nat
  book_id : Nat
  loan_date : Nat
  return_date : Option Nat
deriving DecidableEq, Repr

/-- The request body of `POST /loans` (pydantic model `LoanBase`): the
client supplies `user_id`, `book_id`, `loan_date` and an optional
`return_date`. -/
structure LoanBase where
  user_id : Nat
  book_id : Nat
  loan_date : Nat
  return_date : Option Nat
deriving DecidableEq, Repr

/-- The persistent store: the three tables, plus the auto-increment
counter for the `users` primary key (loan creation never reaches the
point of inserting a row, so no counter for `loans` is needed; see
`create_loan`). -/
structure DB where
  users : List User
  books : List Book
  loans : List Loan
  nextUserId : Nat
deriving DecidableEq, Repr

/-- Update the first element satisfying `p` (the row object returned by
`query(...).filter(p).first()`, mutated in place and committed); all other
elements are unchanged. -/
def updateFirst (p : α → Bool) (f : α → α) : List α → List α
  | [] => []
  | x :: xs => if p x then f x :: xs else x :: updateFirst p f xs

/-- `get_user` from the source: `db.query(User).filter(User.username == username).first()`. -/
def get_user (db : DB) (username : String) : Option User :=
  db.users.find? (fun u => u.username == username)

/-- Stand-in for the external bcrypt call `pwd_context.hash` in
`get_password_hash`; the claims under verification never inspect hash
values, only that the stored record carries the hash of the submitted
password. -/
def get_password_hash (password : String) : String :=
  String.append "bcrypt$" password

/-- Outcome of the `POST /register` handler. -/
inductive RegisterResult where
  /-- The user row was inserted and committed; the handler returns it. -/
  | ok (user : User) (db : DB)
  /-- `HTTPException(400, "Username already registered")`; raised before
  any write, so the carried state is the unchanged input state. -/
  | usernameTaken (db : DB)
deriving DecidableEq, Repr

/-- The state after a `POST /register` request. -/
def RegisterResult.db : RegisterResult → DB
  | .ok _ d => d
  | .usernameTaken d => d

/-- The `register` handler (`src/index.py`, lines 98-108): refuse if the
username is already present, otherwise insert a user with the hashed
password and return it. -/
def register (db : DB) (username password : String) : RegisterResult :=
  match get_user db username with
  | some _ => .usernameTaken db
  | none =>
    let u : User := ⟨db.nextUserId, username, get_password_hash password⟩
    .ok u { db with users := db.users ++ [u], nextUserId := db.nextUserId + 1 }

/-- Outcome of the `POST /loans` handler. -/
inductive CreateLoanResult where
  /-- The intended success outcome (`return db_loan`): present so that
  "the request succeeds" is expressible, but never produced, because line
  128 of the source raises before the insert (see `typeError`). -/
  | ok (loan : Loan) (db : DB)
  /-- `HTTPException(400, "Book not available")`; raised before any
  write. -/
  | bookUnavailable (db : DB)
  /-- The uncaught Python `TypeError` from
  `Loan(**loan.dict(), loan_date=datetime.date.today())`: `loan.dict()`
  already contains the key `loan_date`, and a function call with a
  keyword argument duplicated between a `**` unpacking and an explicit
  keyword raises `TypeError: got multiple values for keyword argument`.
  It is raised before `book.available = False` (line 129) and before any
  `db.add`/`db.commit`, so the carried state is the unchanged input
  state. -/
  | typeError (db : DB)
deriving DecidableEq, Repr

/-- The state after a `POST /loans` request. -/
def CreateLoanResult.db : CreateLoanResult → DB
  | .ok _ d => d
  | .bookUnavailable d => d
  | .typeError d => d

/-- The `create_loan` handler (`src/index.py`, lines 123-133): look up the
first book with the requested id that is available; 400 if none; otherwise
the loan-row constructor call on line 128 raises `TypeError` (duplicate
`loan_date` keyword), so the handler never reaches the availability write,
the insert or the commit.  The authenticated `current_user` is accepted by
the handler but never used in its body. -/
def create_loan (db : DB) (loan : LoanBase) : CreateLoanResult :=
  match db.books.find? (fun b => b.id == loan.book_id && b.available) with
  | none => .bookUnavailable db
  | some _ => .typeError db

/-- The `read_loans` handler (`src/index.py`, lines 135-138): the caller's
loans, paginated with `offset(skip).limit(limit)`. -/
def read_loans (db : DB) (current_user : User) (skip limit : Nat) : List Loan :=
  (((db.loans.filter (fun l => l.user_id == current_user.id)).drop skip).take limit)

/-- A loan is open when its return date is null. -/
def isOpen (l : Loan) : Bool :=
  l.return_date.isNone

/-- Set a loan's return date to the current date
(`loan.return_date = datetime.date.today()`). -/
def closeLoan (today : Nat) (l : Loan) : Loan :=
  { l with return_date := some today }

/-- Set a book's availability flag (`book.available = True`). -/
def setAvailable (b : Book) : Book :=
  { b with available := true }

/-- Outcome of the `POST /loans/{loan_id}/return` handler. -/
inductive ReturnLoanResult where
  /-- Both row mutations committed; the handler returns the updated loan. -/
  | ok (loan : Loan) (db : DB)
  /-- `HTTPException(400, "Loan not found")`; raised before any write. -/
  | loanNotFound (db : DB)
  /-- The uncaught Python `AttributeError` on `book.available = True` when
  the book query returns `None` (a loan whose `book_id` matches no book
  row; impossible under the declared foreign-key constraint).  The session
  is never committed, so the carried state is the unchanged input
  state. -/
  | attributeError (db : DB)
deriving DecidableEq, Repr

/-- The state after a `POST /loans/{loan_id}/return` request. -/
def ReturnLoanResult.db : ReturnLoanResult → DB
  | .ok _ d => d
  | .loanNotFound d => d
  | .attributeError d => d

/-- The `return_loan` handler (`src/index.py`, lines 140-149): find the
first loan with the given id belonging to the caller; 400 if none; set its
return date to today, set the referenced book's availability flag to true,
and commit both writes. -/
def return_loan (db : DB) (loan_id : Nat) (current_user : User) (today : Nat) :
    ReturnLoanResult :=
  match db.loans.find? (fun l => l.id == loan_id && l.user_id == current_user.id) with
  | none => .loanNotFound db
  | some loan =>
    match db.books.find? (fun b => b.id == loan.book_id) with
    | none => .attributeError db
    | some _ =>
      .ok (closeLoan today loan)
        { db with
          loans := updateFirst
            (fun l => l.id == loan_id && l.user_id == current_user.id)
            (closeLoan today) db.loans,
          books := updateFirst (fun b => b.id == loan.book_id) setAvailable db.books }

/-- Is some open loan recorded for the book with primary key `bid`? -/
def openLoanFor (db : DB) (bid : Nat) : Bool :=
  db.loans.any (fun l => l.book_id == bid && isOpen l)

/-- Number of open loans recorded for the book with primary key `bid`. -/
def openCount (db : DB) (bid : Nat) : Nat :=
  db.loans.countP (fun l => l.book_id == bid && isOpen l)

/-- The specification's availability invariant: every book's availability
flag is true iff no open loan references it. -/
def availInvariant (db : DB) : Bool :=
  db.books.all (fun b => b.available == ! openLoanFor db b.id)

/-- The specification's uniqueness rule: at most one open loan per book. -/
def atMostOneOpen (db : DB) : Bool :=
  db.books.all (fun b => decide (openCount db b.id ≤ 1))

theorem updateFirst_of_find? (p : α → Bool) (f : α → α) (xs : List α) (x : α)
    (h : xs.find? p = some x) :
    ∃ s t, xs = s ++ x :: t ∧ updateFirst p f xs = s ++ f x :: t ∧ ∀ y ∈ s, p y = false := by
  induction xs with
  | nil => simp at h
  | cons a as ih =>
    by_cases hpa : p a = true
    · rw [List.find?_cons_of_pos _ hpa] at h
      injection h with h
      subst h
      exact ⟨[], as, by simp, by simp [updateFirst, hpa], by simp⟩
    · rw [Bool.not_eq_true] at hpa
      rw [List.find?_cons_of_neg _ (by simp [hpa])] at h
      obtain ⟨s, t, h1, h2, h3⟩ := ih h
      refine ⟨a :: s, t, by simp [h1], ?_, ?_⟩
      · simp [updateFirst, hpa, h2]
      · intro y hy
        rcases List.mem_cons.mp hy with rfl | hy
        · exact hpa
        · exact h3 y hy

theorem find?_updateFirst (p : α → Bool) (f : α → α) (xs : List α) (x : α)
    (h : xs.find? p = some x) (hf : p (f x) = true) :
    (updateFirst p f xs).find? p = some (f x) := by
  induction xs with
  | nil => simp at h
  | cons a as ih =>
    by_cases hpa : p a = true
    · rw [List.find?_cons_of_pos _ hpa] at h
      injection h with h
      subst h
      simp [updateFirst, hpa, List.find?_cons_of_pos _ hf]
    · rw [Bool.not_eq_true] at hpa
      rw [List.find?_cons_of_neg _ (by simp [hpa])] at h
      simp only [updateFirst, hpa, Bool.false_eq_true, if_false]
      rw [List.find?_cons_of_neg _ (by simp [hpa])]
      exact ih h

theorem not_mem_of_nodup_middle {y : Nat} {xs ys : List Nat}
    (h : (xs ++ y :: ys).Nodup) : y ∉ xs ∧ y ∉ ys := by
  rw [List.nodup_append] at h
  obtain ⟨h1, h2, h3⟩ := h
  exact ⟨fun hy => (h3 hy) (List.mem_cons_self y ys), (List.nodup_cons.mp h2).1⟩

theorem return_ok_preserves_invariant
    (db : DB) (loan_id : Nat) (u : User) (today : Nat) (L : Loan) (B : Book)
    (hfl : db.loans.find? (fun l => l.id == loan_id && l.user_id == u.id) = some L)
    (hfb : db.books.find? (fun b => b.id == L.book_id) = some B)
    (hinv : availInvariant db = true)
    (hone : atMostOneOpen db = true)
    (hnd : (db.books.map Book.id).Nodup)
    (hLopen : isOpen L = true) :
    availInvariant
      { db with
        loans := updateFirst (fun l => l.id == loan_id && l.user_id == u.id)
          (closeLoan today) db.loans,
        books := updateFirst (fun b => b.id == L.book_id) setAvailable db.books } = true ∧
    atMostOneOpen
      { db with
        loans := updateFirst (fun l => l.id == loan_id && l.user_id == u.id)
          (closeLoan today) db.loans,
        books := updateFirst (fun b => b.id == L.book_id) setAvailable db.books } = true := by
  obtain ⟨ls, lt, hls, hlu, -⟩ :=
    updateFirst_of_find? (fun l => l.id == loan_id && l.user_id == u.id)
      (closeLoan today) db.loans L hfl
  obtain ⟨bs, bt, hbs, hbu, -⟩ :=
    updateFirst_of_find? (fun b => b.id == L.book_id) setAvailable db.books B hfb
  have hBid : B.id = L.book_id := by
    have h := List.find?_some hfb
    simpa using h
  have hndB : B.id ∉ bs.map Book.id ∧ B.id ∉ bt.map Book.id := by
    rw [hbs, List.map_append, List.map_cons] at hnd
    exact not_mem_of_nodup_middle hnd
  have hBmem : B ∈ db.books := by
    rw [hbs]
    exact List.mem_append_right _ (List.mem_cons_self _ _)
  have hinv' : ∀ b ∈ db.books,
      b.available = ! db.loans.any (fun l => l.book_id == b.id && isOpen l) := by
    intro b hb
    have h0 : db.books.all (fun b => b.available == ! openLoanFor db b.id) = true := hinv
    have h := List.all_eq_true.mp h0 b hb
    simpa [openLoanFor] using h
  have hone' : ∀ b ∈ db.books,
      db.loans.countP (fun l => l.book_id == b.id && isOpen l) ≤ 1 := by
    intro b hb
    have h0 : db.books.all (fun b => decide (openCount db b.id ≤ 1)) = true := hone
    have h := List.all_eq_true.mp h0 b hb
    exact of_decide_eq_true h
  have hside : ls.countP (fun l => l.book_id == L.book_id && isOpen l) = 0 ∧
      lt.countP (fun l => l.book_id == L.book_id && isOpen l) = 0 := by
    have h1 := hone' B hBmem
    rw [hBid, hls, List.countP_append, List.countP_cons] at h1
    have hq0 : (L.book_id == L.book_id && isOpen L) = true := by simp [hLopen]
    simp only [hq0, if_true] at h1
    omega
  have hany_new : (ls ++ closeLoan today L :: lt).any
      (fun l => l.book_id == L.book_id && isOpen l) = false := by
    rw [List.any_eq_false]
    intro x hx
    rcases List.mem_append.mp hx with hx | hx
    · exact (List.countP_eq_zero.mp hside.1) x hx
    · rcases List.mem_cons.mp hx with rfl | hx
      · simp [closeLoan, isOpen]
      · exact (List.countP_eq_zero.mp hside.2) x hx
  have hany_other : ∀ bid, bid ≠ L.book_id →
      (ls ++ closeLoan today L :: lt).any (fun l => l.book_id == bid && isOpen l)
        = db.loans.any (fun l => l.book_id == bid && isOpen l) := by
    intro bid hne
    rw [hls]
    simp only [List.any_append, List.any_cons]
    have h1 : ((closeLoan today L).book_id == bid && isOpen (closeLoan today L)) = false := by
      simp [closeLoan, isOpen]
    have h2 : (L.book_id == bid && isOpen L) = false := by
      have h3 : (L.book_id == bid) = false := by
        simp
        exact fun h => hne h.symm
      simp [h3]
    rw [h1, h2]
  have hcnt_le : ∀ bid,
      (ls ++ closeLoan today L :: lt).countP (fun l => l.book_id == bid && isOpen l)
        ≤ db.loans.countP (fun l => l.book_id == bid && isOpen l) := by
    intro bid
    rw [hls]
    simp only [List.countP_append, List.countP_cons]
    have h1 : ((closeLoan today L).book_id == bid && isOpen (closeLoan today L)) = false := by
      simp [closeLoan, isOpen]
    simp only [h1, Bool.false_eq_true, if_false]
    cases hq : (L.book_id == bid && isOpen L) <;> simp [hq]
  constructor
  · have hgoal : (bs ++ setAvailable B :: bt).all
        (fun b => b.available ==
          ! (ls ++ closeLoan today L :: lt).any
            (fun l => l.book_id == b.id && isOpen l)) = true := by
      apply List.all_eq_true.mpr
      intro b' hb'
      rcases List.mem_append.mp hb' with hmem | hmem
      · have hne : b'.id ≠ L.book_id := by
          intro he
          have hin : b'.id ∈ bs.map Book.id := List.mem_map_of_mem Book.id hmem
          rw [he, ← hBid] at hin
          exact hndB.1 hin
        have hb'db : b' ∈ db.books := by
          rw [hbs]
          exact List.mem_append_left _ hmem
        rw [hany_other b'.id hne]
        simp [hinv' b' hb'db]
      · rcases List.mem_cons.mp hmem with rfl | hmem
        · simp only [setAvailable]
          rw [hBid, hany_new]
          rfl
        · have hne : b'.id ≠ L.book_id := by
            intro he
            have hin : b'.id ∈ bt.map Book.id := List.mem_map_of_mem Book.id hmem
            rw [he, ← hBid] at hin
            exact hndB.2 hin
          have hb'db : b' ∈ db.books := by
            rw [hbs]
            exact List.mem_append_right _ (List.mem_cons_of_mem _ hmem)
          rw [hany_other b'.id hne]
          simp [hinv' b' hb'db]
    show (updateFirst (fun b => b.id == L.book_id) setAvailable db.books).all
        (fun b => b.available ==
          ! (updateFirst (fun l => l.id == loan_id && l.user_id == u.id)
              (closeLoan today) db.loans).any
            (fun l => l.book_id == b.id && isOpen l)) = true
    rw [hbu, hlu]
    exact hgoal
  · have hgoal : (bs ++ setAvailable B :: bt).all
        (fun b => decide ((ls ++ closeLoan today L :: lt).countP
          (fun l => l.book_id == b.id && isOpen l) ≤ 1)) = true := by
      apply List.all_eq_true.mpr
      intro b' hb'
      apply decide_eq_true
      refine le_trans (hcnt_le b'.id) ?_
      rcases List.mem_append.mp hb' with hmem | hmem
      · exact hone' b' (by rw [hbs]; exact List.mem_append_left _ hmem)
      · rcases List.mem_cons.mp hmem with rfl | hmem
        · have h := hone' B hBmem
          simpa [setAvailable] using h
        · exact hone' b'
            (by rw [hbs]; exact List.mem_append_right _ (List.mem_cons_of_mem _ hmem))
    show (updateFirst (fun b => b.id == L.book_id) setAvailable db.books).all
        (fun b => decide ((updateFirst (fun l => l.id == loan_id && l.user_id == u.id)
            (closeLoan today) db.loans).countP
          (fun l => l.book_id == b.id && isOpen l) ≤ 1)) = true
    rw [hbu, hlu]
    exact hgoal

/-- Is the outcome of a `POST /loans` request the 400 `Book not available`
response? -/
def CreateLoanResult.isBookUnavailable : CreateLoanResult → Bool
  | .bookUnavailable _ => true
  | _ => false

theorem create_loan_typeerror_aux (db : DB) (req : LoanBase)
    (h : ∃ b ∈ db.books, b.id = req.book_id ∧ b.available = true) :
    create_loan db req = .typeError db := by
  obtain ⟨b, hb, hid, hav⟩ := h
  have hs : (db.books.find? (fun b => b.id == req.book_id && b.available)).isSome :=
    List.find?_isSome.mpr ⟨b, hb, by simp [hid, hav]⟩
  unfold create_loan
  cases hfind : db.books.find? (fun b => b.id == req.book_id && b.available) with
  | none => rw [hfind] at hs; simp at hs
  | some x => rfl

theorem find?_append_none {p : α → Bool} {l₁ : List α} (h : l₁.find? p = none)
    (l₂ : List α) : (l₁ ++ l₂).find? p = l₂.find? p := by
  induction l₁ with
  | nil => simp
  | cons a as ih =>
    by_cases hpa : p a = true
    · rw [List.find?_cons_of_pos _ hpa] at h
      simp at h
    · rw [Bool.not_eq_true] at hpa
      rw [List.find?_cons_of_neg _ (by simp [hpa])] at h
      rw [List.cons_append, List.find?_cons_of_neg _ (by simp [hpa])]
      exact ih h

example : register ⟨[], [], [], 1⟩ "alice" "pw" =
    .ok ⟨1, "alice", "bcrypt$pw"⟩ ⟨[⟨1, "alice", "bcrypt$pw"⟩], [], [], 2⟩ := by
  decide

example : create_loan ⟨[], [⟨1, "Dune", "Herbert", true⟩], [], 1⟩ ⟨1, 1, 0, none⟩ =
    .typeError ⟨[], [⟨1, "Dune", "Herbert", true⟩], [], 1⟩ := by
  decide

example : return_loan ⟨[⟨1, "a", "h"⟩], [⟨1, "t", "a", false⟩], [⟨1, 1, 1, 0, none⟩], 2⟩
    1 ⟨1, "a", "h"⟩ 9 =
    .ok ⟨1, 1, 1, 0, some 9⟩
      ⟨[⟨1, "a", "h"⟩], [⟨1, "t", "a", true⟩], [⟨1, 1, 1, 0, some 9⟩], 2⟩ := by
  decide

/-- C1: the claim states that a create-loan request for an existing book
whose availability flag is true inserts a new loan with null return date,
sets the flag to false and returns the created loan.  On the code this is
false: after the availability check passes, line 128 of `src/index.py`
evaluates `Loan(**loan.dict(), loan_date=datetime.date.today())`, whose
keyword argument `loan_date` is duplicated between the `**` unpacking and
the explicit keyword, so Python raises `TypeError` before the insert, the
availability write and the commit; the request ends in a server error with
the store unchanged. -/
theorem create_loan_typeerror_on_available (db : DB) (req : LoanBase)
    (h : ∃ b ∈ db.books, b.id = req.book_id ∧ b.available = true) :
    create_loan db req = .typeError db :=
  create_loan_typeerror_aux db req h

/-- Witness for `create_loan_typeerror_on_available`: one user, one
available book, a well-formed loan request for it. -/
theorem create_loan_typeerror_on_available_witness :
    (∃ b ∈ (⟨[⟨1, "alice", "bcrypt$pw"⟩], [⟨1, "Dune", "Herbert", true⟩], [], 2⟩ : DB).books,
      b.id = (⟨1, 1, 0, none⟩ : LoanBase).book_id ∧ b.available = true) ∧
    create_loan ⟨[⟨1, "alice", "bcrypt$pw"⟩], [⟨1, "Dune", "Herbert", true⟩], [], 2⟩
        ⟨1, 1, 0, none⟩ =
      .typeError ⟨[⟨1, "alice", "bcrypt$pw"⟩], [⟨1, "Dune", "Herbert", true⟩], [], 2⟩ :=
  ⟨by decide, create_loan_typeerror_on_available _ _ (by decide)⟩

/-- C3: a create-loan request fails with the 400 `BookUnavailable`
response exactly when no stored book has the requested id with its
availability flag true, and on that failure the store is unchanged (the
exception is raised before any write). -/
theorem create_loan_unavailable_iff (db : DB) (req : LoanBase) :
    (create_loan db req = .bookUnavailable db ↔
      ∀ b ∈ db.books, b.id = req.book_id → b.available = false) ∧
    (∀ d, create_loan db req = .bookUnavailable d → d = db) := by
  have hmain : ∀ d, create_loan db req = .bookUnavailable d →
      (db.books.find? (fun b => b.id == req.book_id && b.available) = none ∧ d = db) := by
    intro d hd
    unfold create_loan at hd
    cases hfind : db.books.find? (fun b => b.id == req.book_id && b.available) with
    | none =>
      rw [hfind] at hd
      simp only [CreateLoanResult.bookUnavailable.injEq] at hd
      exact ⟨rfl, hd.symm⟩
    | some x =>
      rw [hfind] at hd
      simp at hd
  constructor
  · constructor
    · intro h b hb hid
      have hfind := (hmain db h).1
      have h2 := List.find?_eq_none.mp hfind b hb
      simp only [Bool.and_eq_true, beq_iff_eq, not_and] at h2
      have h3 := h2 hid
      simpa using h3
    · intro h
      have hfind : db.books.find? (fun b => b.id == req.book_id && b.available) = none := by
        apply List.find?_eq_none.mpr
        intro b hb
        simp only [Bool.and_eq_true, beq_iff_eq, not_and]
        intro hid
        rw [h b hb hid]
        simp
      unfold create_loan
      rw [hfind]
  · intro d hd
    exact (hmain d hd).2

/-- Witness for `create_loan_unavailable_iff`: a request for a book that
exists but is already on loan gets the 400 `BookUnavailable` response. -/
theorem create_loan_unavailable_iff_witness :
    (∀ b ∈ (⟨[⟨1, "alice", "h"⟩], [⟨1, "Dune", "Herbert", false⟩], [], 2⟩ : DB).books,
      b.id = (⟨1, 1, 0, none⟩ : LoanBase).book_id → b.available = false) ∧
    create_loan ⟨[⟨1, "alice", "h"⟩], [⟨1, "Dune", "Herbert", false⟩], [], 2⟩
        ⟨1, 1, 0, none⟩ =
      .bookUnavailable ⟨[⟨1, "alice", "h"⟩], [⟨1, "Dune", "Herbert", false⟩], [], 2⟩ :=
  ⟨by decide,
    ((create_loan_unavailable_iff
      ⟨[⟨1, "alice", "h"⟩], [⟨1, "Dune", "Herbert", false⟩], [], 2⟩
      ⟨1, 1, 0, none⟩).1).mpr (by decide)⟩

/-- C9 counterexample: the claim states that a caller authenticated as
user 1 who posts a loan body with `user_id = 2` for an available book gets
a loan record attributed to user 2.  On the code no loan is recorded at
all: the request ends in the `TypeError` of line 128 with the store
unchanged, so no loan attributed to any user is created. -/
theorem create_loan_foreign_user_id_cex :
    create_loan ⟨[⟨1, "alice", "h1"⟩, ⟨2, "bob", "h2"⟩],
        [⟨1, "Dune", "Herbert", true⟩], [], 3⟩ ⟨2, 1, 0, none⟩ =
      .typeError ⟨[⟨1, "alice", "h1"⟩, ⟨2, "bob", "h2"⟩],
        [⟨1, "Dune", "Herbert", true⟩], [], 3⟩ := by
  decide

/-- C9 amended: the create-loan handler indeed performs no check relating
the body's `user_id` to the authenticated caller or to the user table —
its outcome is identical for any two bodies with the same `book_id` and is
unchanged when the `users` and `loans` tables are replaced arbitrarily —
but no loan attributed to any user id is ever created, because the loan
constructor call raises `TypeError` before the insert. -/
theorem create_loan_ignores_user_identity (db : DB) (r1 r2 : LoanBase)
    (us : List User) (lns : List Loan) (n : Nat) (lo : Loan) (d : DB)
    (hbk : r1.book_id = r2.book_id) :
    create_loan db r1 = create_loan db r2 ∧
    (create_loan { db with users := us, loans := lns, nextUserId := n } r1).isBookUnavailable
      = (create_loan db r1).isBookUnavailable ∧
    create_loan db r1 ≠ .ok lo d := by
  refine ⟨?_, ?_, ?_⟩
  · unfold create_loan
    rw [hbk]
  · unfold create_loan
    cases hfind : db.books.find? (fun b => b.id == r1.book_id && b.available) with
    | none => rfl
    | some x => rfl
  · unfold create_loan
    cases hfind : db.books.find? (fun b => b.id == r1.book_id && b.available) with
    | none => simp
    | some x => simp

/-- Witness for `create_loan_ignores_user_identity`: two bodies for book 1
differing in `user_id`, and an arbitrary replacement of the user and loan
tables. -/
theorem create_loan_ignores_user_identity_witness :
    ((⟨2, 1, 0, none⟩ : LoanBase).book_id = (⟨1, 1, 0, none⟩ : LoanBase).book_id) ∧
    (create_loan ⟨[⟨1, "alice", "h1"⟩], [⟨1, "Dune", "Herbert", true⟩], [], 2⟩
        ⟨2, 1, 0, none⟩
      = create_loan ⟨[⟨1, "alice", "h1"⟩], [⟨1, "Dune", "Herbert", true⟩], [], 2⟩
        ⟨1, 1, 0, none⟩ ∧
    (create_loan ⟨[], [⟨1, "Dune", "Herbert", true⟩], [⟨9, 9, 9, 9, none⟩], 7⟩
        ⟨2, 1, 0, none⟩).isBookUnavailable
      = (create_loan ⟨[⟨1, "alice", "h1"⟩], [⟨1, "Dune", "Herbert", true⟩], [], 2⟩
        ⟨2, 1, 0, none⟩).isBookUnavailable ∧
    create_loan ⟨[⟨1, "alice", "h1"⟩], [⟨1, "Dune", "Herbert", true⟩], [], 2⟩
        ⟨2, 1, 0, none⟩
      ≠ .ok ⟨1, 2, 1, 0, none⟩ ⟨[⟨1, "alice", "h1"⟩], [⟨1, "Dune", "Herbert", true⟩], [], 2⟩) :=
  ⟨by decide,
    create_loan_ignores_user_identity
      ⟨[⟨1, "alice", "h1"⟩], [⟨1, "Dune", "Herbert", true⟩], [], 2⟩
      ⟨2, 1, 0, none⟩ ⟨1, 1, 0, none⟩
      [] [⟨9, 9, 9, 9, none⟩] 7
      ⟨1, 2, 1, 0, none⟩ ⟨[⟨1, "alice", "h1"⟩], [⟨1, "Dune", "Herbert", true⟩], [], 2⟩
      (by decide)⟩

/-- C10: the claim states that of two create-loan requests for the same
available book, exactly one succeeds and the other fails with
`BookUnavailable`.  On the code, in the serialized schedule (one request
completing before the other starts — one of the schedules the claim
quantifies over), both requests raise `TypeError`: neither succeeds,
neither receives `BookUnavailable`, no loan is created, and the book's
availability flag is never written. -/
theorem concurrent_create_both_typeerror (db : DB) (r1 r2 : LoanBase)
    (h : ∃ b ∈ db.books, b.id = r1.book_id ∧ b.available = true)
    (hbk : r2.book_id = r1.book_id) :
    create_loan db r1 = .typeError db ∧
    create_loan ((create_loan db r1).db) r2 = .typeError db := by
  have h1 : create_loan db r1 = .typeError db := create_loan_typeerror_aux db r1 h
  refine ⟨h1, ?_⟩
  rw [h1]
  exact create_loan_typeerror_aux db r2 (by rw [hbk]; exact h)

/-- Witness for `concurrent_create_both_typeerror`: two requests for the
single available book 1, run one after the other. -/
theorem concurrent_create_both_typeerror_witness :
    (∃ b ∈ (⟨[⟨1, "alice", "h1"⟩, ⟨2, "bob", "h2"⟩],
        [⟨1, "Dune", "Herbert", true⟩], [], 3⟩ : DB).books,
      b.id = (⟨1, 1, 0, none⟩ : LoanBase).book_id ∧ b.available = true) ∧
    ((⟨2, 1, 0, none⟩ : LoanBase).book_id = (⟨1, 1, 0, none⟩ : LoanBase).book_id) ∧
    (create_loan ⟨[⟨1, "alice", "h1"⟩, ⟨2, "bob", "h2"⟩],
        [⟨1, "Dune", "Herbert", true⟩], [], 3⟩ ⟨1, 1, 0, none⟩ =
      .typeError ⟨[⟨1, "alice", "h1"⟩, ⟨2, "bob", "h2"⟩],
        [⟨1, "Dune", "Herbert", true⟩], [], 3⟩ ∧
    create_loan ((create_loan ⟨[⟨1, "alice", "h1"⟩, ⟨2, "bob", "h2"⟩],
        [⟨1, "Dune", "Herbert", true⟩], [], 3⟩ ⟨1, 1, 0, none⟩).db) ⟨2, 1, 0, none⟩ =
      .typeError ⟨[⟨1, "alice", "h1"⟩, ⟨2, "bob", "h2"⟩],
        [⟨1, "Dune", "Herbert", true⟩], [], 3⟩) :=
  ⟨by decide, by decide,
    concurrent_create_both_typeerror
      ⟨[⟨1, "alice", "h1"⟩, ⟨2, "bob", "h2"⟩], [⟨1, "Dune", "Herbert", true⟩], [], 3⟩
      ⟨1, 1, 0, none⟩ ⟨2, 1, 0, none⟩ (by decide) (by decide)⟩

/-- C2 counterexample: a store satisfying the claimed invariant (book 1 is
unavailable and has an open loan) in which a return-loan request for an
already-closed loan of the same book — accepted by the handler, which
never checks that the loan is open — sets the book available while the
other loan is still open, falsifying "each operation preserves this
invariant". -/
theorem return_loan_breaks_invariant_cex :
    availInvariant ⟨[⟨1, "alice", "h1"⟩, ⟨2, "bob", "h2"⟩],
        [⟨1, "Dune", "Herbert", false⟩],
        [⟨1, 1, 1, 0, some 5⟩, ⟨2, 2, 1, 6, none⟩], 3⟩ = true ∧
    availInvariant ((return_loan ⟨[⟨1, "alice", "h1"⟩, ⟨2, "bob", "h2"⟩],
        [⟨1, "Dune", "Herbert", false⟩],
        [⟨1, 1, 1, 0, some 5⟩, ⟨2, 2, 1, 6, none⟩], 3⟩ 1 ⟨1, "alice", "h1"⟩ 9).db)
      = false := by
  decide

/-- C2 amended: with the additional well-formedness facts that book
primary keys are distinct and each book has at most one open loan, the
invariant "a book's availability flag is true iff it has no open loan" is
preserved by register (which writes only the user table), by create-loan
(which never commits any write), and by return-loan whenever the loan the
handler finds is still open; re-returning a closed loan can break it, as
the counterexample shows. -/
theorem ops_preserve_availability_invariant
    (db : DB) (name pw : String) (req : LoanBase) (loan_id : Nat) (u : User) (today : Nat)
    (hinv : availInvariant db = true)
    (hone : atMostOneOpen db = true)
    (hnd : (db.books.map Book.id).Nodup)
    (hopen : ((db.loans.find? (fun l => l.id == loan_id && l.user_id == u.id)).all isOpen)
      = true) :
    (availInvariant (register db name pw).db = true ∧
      atMostOneOpen (register db name pw).db = true) ∧
    (availInvariant (create_loan db req).db = true ∧
      atMostOneOpen (create_loan db req).db = true) ∧
    (availInvariant (return_loan db loan_id u today).db = true ∧
      atMostOneOpen (return_loan db loan_id u today).db = true) := by
  refine ⟨?_, ?_, ?_⟩
  · unfold register
    cases hg : get_user db name with
    | none => exact ⟨hinv, hone⟩
    | some x => exact ⟨hinv, hone⟩
  · unfold create_loan
    cases hf : db.books.find? (fun b => b.id == req.book_id && b.available) with
    | none => exact ⟨hinv, hone⟩
    | some x => exact ⟨hinv, hone⟩
  · unfold return_loan
    split
    · exact ⟨hinv, hone⟩
    · next L hfl =>
      split
      · exact ⟨hinv, hone⟩
      · next B hfb =>
        have hLopen : isOpen L = true := by
          rw [hfl] at hopen
          simpa [Option.all] using hopen
        exact return_ok_preserves_invariant db loan_id u today L B hfl hfb hinv hone hnd
          hLopen

/-- Witness for `ops_preserve_availability_invariant`: one user, one
available book, one open loan for another book id than the request, and a
return request targeting the open loan. -/
theorem ops_preserve_availability_invariant_witness :
    availInvariant ⟨[⟨1, "alice", "h1"⟩], [⟨1, "Dune", "Herbert", false⟩],
        [⟨1, 1, 1, 0, none⟩], 2⟩ = true ∧
    atMostOneOpen ⟨[⟨1, "alice", "h1"⟩], [⟨1, "Dune", "Herbert", false⟩],
        [⟨1, 1, 1, 0, none⟩], 2⟩ = true ∧
    ((⟨[⟨1, "alice", "h1"⟩], [⟨1, "Dune", "Herbert", false⟩],
        [⟨1, 1, 1, 0, none⟩], 2⟩ : DB).books.map Book.id).Nodup ∧
    (((⟨[⟨1, "alice", "h1"⟩], [⟨1, "Dune", "Herbert", false⟩],
        [⟨1, 1, 1, 0, none⟩], 2⟩ : DB).loans.find?
      (fun l => l.id == 1 && l.user_id == (⟨1, "alice", "h1"⟩ : User).id)).all isOpen)
      = true ∧
    ((availInvariant (register ⟨[⟨1, "alice", "h1"⟩], [⟨1, "Dune", "Herbert", false⟩],
        [⟨1, 1, 1, 0, none⟩], 2⟩ "bob" "pw").db = true ∧
      atMostOneOpen (register ⟨[⟨1, "alice", "h1"⟩], [⟨1, "Dune", "Herbert", false⟩],
        [⟨1, 1, 1, 0, none⟩], 2⟩ "bob" "pw").db = true) ∧
    (availInvariant (create_loan ⟨[⟨1, "alice", "h1"⟩], [⟨1, "Dune", "Herbert", false⟩],
        [⟨1, 1, 1, 0, none⟩], 2⟩ ⟨1, 1, 0, none⟩).db = true ∧
      atMostOneOpen (create_loan ⟨[⟨1, "alice", "h1"⟩], [⟨1, "Dune", "Herbert", false⟩],
        [⟨1, 1, 1, 0, none⟩], 2⟩ ⟨1, 1, 0, none⟩).db = true) ∧
    (availInvariant (return_loan ⟨[⟨1, "alice", "h1"⟩], [⟨1, "Dune", "Herbert", false⟩],
        [⟨1, 1, 1, 0, none⟩], 2⟩ 1 ⟨1, "alice", "h1"⟩ 9).db = true ∧
      atMostOneOpen (return_loan ⟨[⟨1, "alice", "h1"⟩], [⟨1, "Dune", "Herbert", false⟩],
        [⟨1, 1, 1, 0, none⟩], 2⟩ 1 ⟨1, "alice", "h1"⟩ 9).db = true)) :=
  ⟨by decide, by decide, by decide, by decide,
    ops_preserve_availability_invariant
      ⟨[⟨1, "alice", "h1"⟩], [⟨1, "Dune", "Herbert", false⟩], [⟨1, 1, 1, 0, none⟩], 2⟩
      "bob" "pw" ⟨1, 1, 0, none⟩ 1 ⟨1, "alice", "h1"⟩ 9
      (by decide) (by decide) (by decide) (by decide)⟩

theorem return_loan_found_aux (db : DB) (loan_id : Nat) (u : User) (today : Nat)
    (L : Loan) (B : Book)
    (hfl : db.loans.find? (fun l => l.id == loan_id && l.user_id == u.id) = some L)
    (hfb : db.books.find? (fun b => b.id == L.book_id) = some B) :
    return_loan db loan_id u today = .ok (closeLoan today L)
      { db with
        loans := updateFirst (fun l => l.id == loan_id && l.user_id == u.id)
          (closeLoan today) db.loans,
        books := updateFirst (fun b => b.id == L.book_id) setAvailable db.books } ∧
    (updateFirst (fun l => l.id == loan_id && l.user_id == u.id)
        (closeLoan today) db.loans).find? (fun l => l.id == loan_id && l.user_id == u.id)
      = some (closeLoan today L) ∧
    (updateFirst (fun b => b.id == L.book_id) setAvailable db.books).find?
        (fun b => b.id == L.book_id)
      = some (setAvailable B) := by
  have hpL : ((closeLoan today L).id == loan_id && (closeLoan today L).user_id == u.id)
      = true := by
    have h := List.find?_some hfl
    simpa [closeLoan] using h
  have hpB : ((setAvailable B).id == L.book_id) = true := by
    have h := List.find?_some hfb
    simpa [setAvailable] using h
  refine ⟨?_, ?_, ?_⟩
  · simp only [return_loan, hfl, hfb]
  · exact find?_updateFirst _ _ _ _ hfl hpL
  · exact find?_updateFirst _ _ _ _ hfb hpB

/-- C4: when a loan with the given identifier belongs to the requesting
borrower, and the referenced book exists (guaranteed by the foreign-key
constraint on `loans.book_id`), the return-loan request succeeds: the
handler returns the loan with its return date set to the current date
(hence non-null), the stored loan row now carries that return date, and
the stored book row's availability flag is true. -/
theorem return_loan_success (db : DB) (loan_id : Nat) (u : User) (today : Nat)
    (L : Loan) (B : Book)
    (hfl : db.loans.find? (fun l => l.id == loan_id && l.user_id == u.id) = some L)
    (hfb : db.books.find? (fun b => b.id == L.book_id) = some B) :
    ∃ db', return_loan db loan_id u today = .ok (closeLoan today L) db' ∧
      (closeLoan today L).return_date = some today ∧
      db'.loans.find? (fun l => l.id == loan_id && l.user_id == u.id)
        = some (closeLoan today L) ∧
      db'.books.find? (fun b => b.id == L.book_id) = some (setAvailable B) ∧
      (setAvailable B).available = true := by
  obtain ⟨h1, h2, h3⟩ := return_loan_found_aux db loan_id u today L B hfl hfb
  exact ⟨_, h1, rfl, h2, h3, rfl⟩

/-- Witness for `return_loan_success`: alice returns her open loan on
book 1. -/
theorem return_loan_success_witness :
    ((⟨[⟨1, "alice", "h1"⟩], [⟨1, "Dune", "Herbert", false⟩],
        [⟨1, 1, 1, 0, none⟩], 2⟩ : DB).loans.find?
      (fun l => l.id == 1 && l.user_id == (⟨1, "alice", "h1"⟩ : User).id)
      = some ⟨1, 1, 1, 0, none⟩) ∧
    ((⟨[⟨1, "alice", "h1"⟩], [⟨1, "Dune", "Herbert", false⟩],
        [⟨1, 1, 1, 0, none⟩], 2⟩ : DB).books.find?
      (fun b => b.id == (⟨1, 1, 1, 0, none⟩ : Loan).book_id)
      = some ⟨1, "Dune", "Herbert", false⟩) ∧
    (∃ db', return_loan ⟨[⟨1, "alice", "h1"⟩], [⟨1, "Dune", "Herbert", false⟩],
          [⟨1, 1, 1, 0, none⟩], 2⟩ 1 ⟨1, "alice", "h1"⟩ 9
        = .ok (closeLoan 9 ⟨1, 1, 1, 0, none⟩) db' ∧
      (closeLoan 9 ⟨1, 1, 1, 0, none⟩).return_date = some 9 ∧
      db'.loans.find? (fun l => l.id == 1 && l.user_id == (⟨1, "alice", "h1"⟩ : User).id)
        = some (closeLoan 9 ⟨1, 1, 1, 0, none⟩) ∧
      db'.books.find? (fun b => b.id == (⟨1, 1, 1, 0, none⟩ : Loan).book_id)
        = some (setAvailable ⟨1, "Dune", "Herbert", false⟩) ∧
      (setAvailable ⟨1, "Dune", "Herbert", false⟩).available = true) :=
  ⟨by decide, by decide,
    return_loan_success ⟨[⟨1, "alice", "h1"⟩], [⟨1, "Dune", "Herbert", false⟩],
        [⟨1, 1, 1, 0, none⟩], 2⟩ 1 ⟨1, "alice", "h1"⟩ 9
      ⟨1, 1, 1, 0, none⟩ ⟨1, "Dune", "Herbert", false⟩ (by decide) (by decide)⟩

/-- C5 counterexample: the claim states that a return-loan request for a
loan that is already closed does not succeed and does not overwrite the
stored return date.  On the code the handler never checks that the loan is
open: alice's loan, closed with return date 5, is found, the request
succeeds, and both the returned and the stored record carry the new
return date 9. -/
theorem return_closed_loan_succeeds_cex :
    return_loan ⟨[⟨1, "alice", "h1"⟩], [⟨1, "Dune", "Herbert", false⟩],
        [⟨1, 1, 1, 0, some 5⟩], 2⟩ 1 ⟨1, "alice", "h1"⟩ 9
      = .ok ⟨1, 1, 1, 0, some 9⟩
        ⟨[⟨1, "alice", "h1"⟩], [⟨1, "Dune", "Herbert", true⟩],
          [⟨1, 1, 1, 0, some 9⟩], 2⟩ := by
  decide

/-- C5 amended: the return date is not write-once: a return-loan request
for an already-closed loan belonging to the requester (whose referenced
book exists) succeeds again and overwrites the stored return date with
the current date. -/
theorem return_closed_loan_overwrites (db : DB) (loan_id : Nat) (u : User)
    (today d : Nat) (L : Loan) (B : Book)
    (hfl : db.loans.find? (fun l => l.id == loan_id && l.user_id == u.id) = some L)
    (_hclosed : L.return_date = some d)
    (hfb : db.books.find? (fun b => b.id == L.book_id) = some B) :
    ∃ db', return_loan db loan_id u today = .ok (closeLoan today L) db' ∧
      (closeLoan today L).return_date = some today ∧
      db'.loans.find? (fun l => l.id == loan_id && l.user_id == u.id)
        = some (closeLoan today L) := by
  obtain ⟨h1, h2, -⟩ := return_loan_found_aux db loan_id u today L B hfl hfb
  exact ⟨_, h1, rfl, h2⟩

/-- Witness for `return_closed_loan_overwrites`: alice re-returns her loan
already closed with return date 5; the stored date becomes 9. -/
theorem return_closed_loan_overwrites_witness :
    ((⟨[⟨1, "alice", "h1"⟩], [⟨1, "Dune", "Herbert", false⟩],
        [⟨1, 1, 1, 0, some 5⟩], 2⟩ : DB).loans.find?
      (fun l => l.id == 1 && l.user_id == (⟨1, "alice", "h1"⟩ : User).id)
      = some ⟨1, 1, 1, 0, some 5⟩) ∧
    ((⟨1, 1, 1, 0, some 5⟩ : Loan).return_date = some 5) ∧
    ((⟨[⟨1, "alice", "h1"⟩], [⟨1, "Dune", "Herbert", false⟩],
        [⟨1, 1, 1, 0, some 5⟩], 2⟩ : DB).books.find?
      (fun b => b.id == (⟨1, 1, 1, 0, some 5⟩ : Loan).book_id)
      = some ⟨1, "Dune", "Herbert", false⟩) ∧
    (∃ db', return_loan ⟨[⟨1, "alice", "h1"⟩], [⟨1, "Dune", "Herbert", false⟩],
          [⟨1, 1, 1, 0, some 5⟩], 2⟩ 1 ⟨1, "alice", "h1"⟩ 9
        = .ok (closeLoan 9 ⟨1, 1, 1, 0, some 5⟩) db' ∧
      (closeLoan 9 ⟨1, 1, 1, 0, some 5⟩).return_date = some 9 ∧
      db'.loans.find? (fun l => l.id == 1 && l.user_id == (⟨1, "alice", "h1"⟩ : User).id)
        = some (closeLoan 9 ⟨1, 1, 1, 0, some 5⟩)) :=
  ⟨by decide, by decide, by decide,
    return_closed_loan_overwrites ⟨[⟨1, "alice", "h1"⟩], [⟨1, "Dune", "Herbert", false⟩],
        [⟨1, 1, 1, 0, some 5⟩], 2⟩ 1 ⟨1, "alice", "h1"⟩ 9 5
      ⟨1, 1, 1, 0, some 5⟩ ⟨1, "Dune", "Herbert", false⟩
      (by decide) (by decide) (by decide)⟩

/-- C6: a return-loan request fails with the 400 `LoanNotFound` response
exactly when no stored loan has the given identifier together with the
requesting borrower as its user (in particular when the loan exists but
belongs to a different borrower), and on that failure the store is
unchanged (the exception is raised before any write). -/
theorem return_loan_not_found_iff (db : DB) (loan_id : Nat) (u : User) (today : Nat) :
    (return_loan db loan_id u today = .loanNotFound db ↔
      ∀ l ∈ db.loans, ¬(l.id = loan_id ∧ l.user_id = u.id)) ∧
    (∀ d, return_loan db loan_id u today = .loanNotFound d → d = db) := by
  have hmain : ∀ d, return_loan db loan_id u today = .loanNotFound d →
      (db.loans.find? (fun l => l.id == loan_id && l.user_id == u.id) = none ∧ d = db) := by
    intro d hd
    unfold return_loan at hd
    split at hd
    · next hfl =>
      simp only [ReturnLoanResult.loanNotFound.injEq] at hd
      exact ⟨hfl, hd.symm⟩
    · next L hfl =>
      split at hd
      · simp at hd
      · simp at hd
  constructor
  · constructor
    · intro h l hl hc
      have hfl := (hmain db h).1
      have h2 := List.find?_eq_none.mp hfl l hl
      apply h2
      simp [hc.1, hc.2]
    · intro h
      have hfl : db.loans.find? (fun l => l.id == loan_id && l.user_id == u.id) = none := by
        apply List.find?_eq_none.mpr
        intro l hl
        simpa using h l hl
      unfold return_loan
      rw [hfl]
  · intro d hd
    exact (hmain d hd).2

/-- Witness for `return_loan_not_found_iff`: bob asks to return alice's
loan; no loan with that identifier belongs to bob, and the request gets
the 400 `LoanNotFound` response with the store unchanged. -/
theorem return_loan_not_found_iff_witness :
    (∀ l ∈ (⟨[⟨1, "alice", "h1"⟩, ⟨2, "bob", "h2"⟩], [⟨1, "Dune", "Herbert", false⟩],
        [⟨1, 1, 1, 0, none⟩], 3⟩ : DB).loans,
      ¬(l.id = 1 ∧ l.user_id = (⟨2, "bob", "h2"⟩ : User).id)) ∧
    return_loan ⟨[⟨1, "alice", "h1"⟩, ⟨2, "bob", "h2"⟩], [⟨1, "Dune", "Herbert", false⟩],
        [⟨1, 1, 1, 0, none⟩], 3⟩ 1 ⟨2, "bob", "h2"⟩ 9
      = .loanNotFound ⟨[⟨1, "alice", "h1"⟩, ⟨2, "bob", "h2"⟩],
        [⟨1, "Dune", "Herbert", false⟩], [⟨1, 1, 1, 0, none⟩], 3⟩ :=
  ⟨by decide,
    ((return_loan_not_found_iff ⟨[⟨1, "alice", "h1"⟩, ⟨2, "bob", "h2"⟩],
        [⟨1, "Dune", "Herbert", false⟩], [⟨1, 1, 1, 0, none⟩], 3⟩
      1 ⟨2, "bob", "h2"⟩ 9).1).mpr (by decide)⟩

/-- C7: every loan in the list returned by an authenticated list-loans
request, for any pagination offset and limit, has the requesting borrower
as its borrowing user. -/
theorem read_loans_only_own (db : DB) (u : User) (skip limit : Nat) (l : Loan)
    (h : l ∈ read_loans db u skip limit) : l.user_id = u.id := by
  unfold read_loans at h
  have h1 := List.mem_of_mem_take h
  have h2 := List.mem_of_mem_drop h1
  have h3 := (List.mem_filter.mp h2).2
  simpa using h3

/-- Witness for `read_loans_only_own`: alice's listing contains her loan,
whose borrowing user is alice. -/
theorem read_loans_only_own_witness :
    (⟨1, 1, 1, 0, none⟩ : Loan) ∈
      read_loans ⟨[⟨1, "alice", "h1"⟩, ⟨2, "bob", "h2"⟩], [⟨1, "Dune", "Herbert", false⟩],
        [⟨2, 2, 1, 0, none⟩, ⟨1, 1, 1, 0, none⟩], 3⟩ ⟨1, "alice", "h1"⟩ 0 10 ∧
    (⟨1, 1, 1, 0, none⟩ : Loan).user_id = (⟨1, "alice", "h1"⟩ : User).id :=
  ⟨by decide,
    read_loans_only_own ⟨[⟨1, "alice", "h1"⟩, ⟨2, "bob", "h2"⟩],
        [⟨1, "Dune", "Herbert", false⟩], [⟨2, 2, 1, 0, none⟩, ⟨1, 1, 1, 0, none⟩], 3⟩
      ⟨1, "alice", "h1"⟩ 0 10 ⟨1, 1, 1, 0, none⟩ (by decide)⟩

/-- C8: a register request for a username already present fails with the
400 `UsernameTaken` response and leaves the user store unchanged; a
register request for a fresh username succeeds, returning a user record
carrying the submitted username, the assigned identifier and the hashed
password, appended to the user store and found by later username lookups;
consequently, of two register requests with the same username, if the
first succeeds the second fails with `UsernameTaken` and changes
nothing. -/
theorem register_spec (db : DB) (name pw pw2 : String) :
    ((get_user db name).isSome → register db name pw = .usernameTaken db) ∧
    (get_user db name = none →
      ∃ v d, register db name pw = .ok v d ∧ v.username = name ∧ v.id = db.nextUserId ∧
        v.password_hash = get_password_hash pw ∧ d.users = db.users ++ [v] ∧
        get_user d name = some v) ∧
    (∀ v d, register db name pw = .ok v d → register d name pw2 = .usernameTaken d) := by
  have hok : ∀ v d, register db name pw = .ok v d →
      (get_user db name = none ∧ v = ⟨db.nextUserId, name, get_password_hash pw⟩ ∧
        d = { db with users := db.users ++ [v], nextUserId := db.nextUserId + 1 }) := by
    intro v d hd
    unfold register at hd
    split at hd
    · simp at hd
    · next hg =>
      simp only [RegisterResult.ok.injEq] at hd
      exact ⟨hg, hd.1.symm, by rw [← hd.1]; exact hd.2.symm⟩
  have hfound : ∀ v (d : DB), v.username = name → d.users = db.users ++ [v] →
      get_user db name = none → get_user d name = some v := by
    intro v d hv hd hg
    unfold get_user at hg ⊢
    rw [hd, find?_append_none hg]
    simp [hv]
  refine ⟨?_, ?_, ?_⟩
  · intro h
    unfold register
    split
    · rfl
    · next hg =>
      rw [hg] at h
      simp at h
  · intro hg
    refine ⟨⟨db.nextUserId, name, get_password_hash pw⟩,
      { db with users := db.users ++ [⟨db.nextUserId, name, get_password_hash pw⟩],
                nextUserId := db.nextUserId + 1 }, ?_, rfl, rfl, rfl, rfl, ?_⟩
    · unfold register
      rw [hg]
    · exact hfound _ _ rfl rfl hg
  · intro v d hd
    obtain ⟨hg, hv, hdvd⟩ := hok v d hd
    have hgd : get_user d name = some v := by
      apply hfound v d _ _ hg
      · rw [hv]
      · rw [hdvd]
    unfold register
    rw [hgd]

/-- Witness for `register_spec`: registering "alice" into an empty store
succeeds; registering "alice" again into the resulting store fails with
`UsernameTaken` and returns the store unchanged. -/
theorem register_spec_witness :
    register ⟨[], [], [], 1⟩ "alice" "pw" =
      .ok ⟨1, "alice", "bcrypt$pw"⟩ ⟨[⟨1, "alice", "bcrypt$pw"⟩], [], [], 2⟩ ∧
    register ⟨[⟨1, "alice", "bcrypt$pw"⟩], [], [], 2⟩ "alice" "pw2" =
      .usernameTaken ⟨[⟨1, "alice", "bcrypt$pw"⟩], [], [], 2⟩ :=
  ⟨by decide,
    (register_spec ⟨[], [], [], 1⟩ "alice" "pw" "pw2").2.2
      ⟨1, "alice", "bcrypt$pw"⟩ ⟨[⟨1, "alice", "bcrypt$pw"⟩], [], [], 2⟩ (by decide)⟩
